import Mathlib

/-!
Verification of the frame codec of `rsocket-rust` (files `src/frame/mod.rs`
and `src/frame/request_fnf.rs`), a binary framing layer for an RSocket-style
wire protocol.  Byte buffers are modelled as `List Nat` (each element a byte
value).  Rust panics (out-of-bounds buffer reads, `unimplemented!()`) are
modelled by the `panic` outcome of `RunResult`; `Err(RSocketError)` is the
`err` outcome.
-/

namespace RSocket

/-- A byte buffer, each entry one byte. -/
abbrev Bytes := List Nat

/-- Outcome of running a fallible Rust function: a panic (out-of-bounds read
or `unimplemented!()`), an `Err` with its message, or an `Ok` value. -/
inductive RunResult (α : Type) where
  | panic : RunResult α
  | err : String → RunResult α
  | ok : α → RunResult α
deriving Repr, DecidableEq

/-- `Result::map` on the `RunResult` model (panics propagate). -/
def RunResult.map {α β : Type} (f : α → β) : RunResult α → RunResult β
  | .panic => .panic
  | .err s => .err s
  | .ok a => .ok (f a)

/-- `BigEndian::read_u32`: reads the first 4 bytes big-endian; fewer than 4
bytes is an out-of-bounds read, i.e. a panic, modelled as `none`. -/
def readU32be (b : Bytes) : Option Nat :=
  match b with
  | b0 :: b1 :: b2 :: b3 :: _ => some (((b0 * 256 + b1) * 256 + b2) * 256 + b3)
  | _ => none

/-- `BigEndian::read_u16`: reads the first 2 bytes big-endian; fewer than 2
bytes is an out-of-bounds read, i.e. a panic, modelled as `none`. -/
def readU16be (b : Bytes) : Option Nat :=
  match b with
  | b0 :: b1 :: _ => some (b0 * 256 + b1)
  | _ => none

/-- `put_u32_be`: the 4 big-endian bytes of a 32-bit value. -/
def putU32be (n : Nat) : Bytes :=
  [n / 2 ^ 24 % 256, n / 2 ^ 16 % 256, n / 2 ^ 8 % 256, n % 256]

/-- `put_u16_be`: the 2 big-endian bytes of a 16-bit value. -/
def putU16be (n : Nat) : Bytes :=
  [n / 2 ^ 8 % 256, n % 256]

/-- 3-byte (24-bit) big-endian length prefix used for metadata. -/
def putU24be (n : Nat) : Bytes :=
  [n / 2 ^ 16 % 256, n / 2 ^ 8 % 256, n % 256]

def FLAG_NEXT : Nat := 1 <<< 5
def FLAG_COMPLETE : Nat := 1 <<< 6
def FLAG_FOLLOW : Nat := 1 <<< 7
def FLAG_METADATA : Nat := 1 <<< 8
def FLAG_IGNORE : Nat := 1 <<< 9

def TYPE_SETUP : Nat := 0x01
def TYPE_LEASE : Nat := 0x02
def TYPE_KEEPALIVE : Nat := 0x03
def TYPE_REQUEST_RESPONSE : Nat := 0x04
def TYPE_REQUEST_FNF : Nat := 0x05
def TYPE_REQUEST_STREAM : Nat := 0x06
def TYPE_REQUEST_CHANNEL : Nat := 0x07
def TYPE_REQUEST_N : Nat := 0x08
def TYPE_CANCEL : Nat := 0x09
def TYPE_PAYLOAD : Nat := 0x0A
def TYPE_ERROR : Nat := 0x0B
def TYPE_METADATA_PUSH : Nat := 0x0C
def TYPE_RESUME : Nat := 0x0D
def TYPE_RESUME_OK : Nat := 0x0E

/-- The 6-byte fixed header length (`LEN_HEADER`). -/
def LEN_HEADER : Nat := 6

/-- Modelled from the spec: `PayloadSupport::read` (its source file is not
under `src/`; §4.2 of the spec and the call site in `request_fnf.rs` fix its
behaviour).  The call site `let (m, d) = PayloadSupport::read(flag, bf)`
shows it returns a plain pair, not a `Result`, so it has no error return.
If `FLAG_METADATA` is set it reads a 3-byte big-endian length `n` and splits
off `n` metadata bytes; splitting a buffer holding fewer than `n` bytes (or
reading the length from fewer than 3 bytes) is an out-of-bounds buffer
operation and panics, modelled as `none`.  The remaining bytes become the
data, with an empty remainder mapped to `none` rather than an empty
sequence. -/
def PayloadSupport.read (flag : Nat) (bf : Bytes) :
    Option (Option Bytes × Option Bytes) :=
  if flag &&& FLAG_METADATA ≠ 0 then
    match bf with
    | l0 :: l1 :: l2 :: rest =>
      let n := (l0 * 256 + l1) * 256 + l2
      if n ≤ rest.length then
        let remainder := rest.drop n
        some (some (rest.take n),
          if remainder.isEmpty then none else some remainder)
      else none
    | _ => none
  else
    some (none, if bf.isEmpty then none else some bf)

/-- Modelled from the spec: `PayloadSupport::write` (source file not under
`src/`): if metadata is present, write its 3-byte big-endian length and its
bytes; then write the data bytes if present. -/
def PayloadSupport.write (metadata d : Option Bytes) : Bytes :=
  (match metadata with
   | some m => putU24be m.length ++ m
   | none => []) ++
  (match d with
   | some v => v
   | none => [])

/-- Modelled from the spec: `PayloadSupport::len` (source file not under
`src/`): `3 + metadata.len()` when metadata is present, plus `data.len()`
when data is present. -/
def PayloadSupport.len (metadata d : Option Bytes) : Nat :=
  (match metadata with
   | some m => 3 + m.length
   | none => 0) +
  (match d with
   | some v => v.length
   | none => 0)

/-- `RequestFNF` body: optional metadata and optional data
(`request_fnf.rs`). -/
structure RequestFNF where
  metadata : Option Bytes
  data : Option Bytes
deriving Repr, DecidableEq

/-- `RequestFNF::decode`: delegates to `PayloadSupport::read` and wraps the
resulting pair in `Ok` unconditionally (`request_fnf.rs` lines 61–67). -/
def RequestFNF.decode (flag : Nat) (bf : Bytes) : RunResult RequestFNF :=
  match PayloadSupport.read flag bf with
  | none => .panic
  | some (m, d) => .ok { metadata := m, data := d }

/-- `RequestFNF`'s `Writeable::write_to`: delegates to
`PayloadSupport::write`. -/
def RequestFNF.writeTo (v : RequestFNF) : Bytes :=
  PayloadSupport.write v.metadata v.data

/-- `RequestFNF`'s `Writeable::len`: delegates to `PayloadSupport::len`. -/
def RequestFNF.bodyLen (v : RequestFNF) : Nat :=
  PayloadSupport.len v.metadata v.data

/-- Modelled from the spec: the `Setup` body's source file is not under
`src/` and the spec names its fields (version numbers, keepalive interval,
max lifetime, resume token, MIME strings, payload pair) without fixing a
byte layout, so it is modelled as an opaque carrier of its raw body bytes;
only its participation in the envelope dispatch matters for the claims
settled here. -/
structure Setup where
  raw : Bytes
deriving Repr, DecidableEq

def Setup.decode (_flag : Nat) (bf : Bytes) : RunResult Setup :=
  .ok { raw := bf }

def Setup.writeTo (v : Setup) : Bytes := v.raw

def Setup.bodyLen (v : Setup) : Nat := v.raw.length

/-- Modelled from the spec: `Lease` body, layout not given by the spec;
opaque raw-byte carrier (see `Setup`). -/
structure Lease where
  raw : Bytes
deriving Repr, DecidableEq

def Lease.decode (_flag : Nat) (bf : Bytes) : RunResult Lease :=
  .ok { raw := bf }

def Lease.writeTo (v : Lease) : Bytes := v.raw

def Lease.bodyLen (v : Lease) : Nat := v.raw.length

/-- Modelled from the spec: `Keepalive` body, layout not given by the spec;
opaque raw-byte carrier (see `Setup`). -/
structure Keepalive where
  raw : Bytes
deriving Repr, DecidableEq

def Keepalive.decode (_flag : Nat) (bf : Bytes) : RunResult Keepalive :=
  .ok { raw := bf }

def Keepalive.writeTo (v : Keepalive) : Bytes := v.raw

def Keepalive.bodyLen (v : Keepalive) : Nat := v.raw.length

/-- Modelled from the spec: `RequestResponse` body (source file not under
`src/`); §4.2 lists it among the payload-carrying bodies, so it is the
metadata/data pair delegating to the Payload Codec, like `RequestFNF`. -/
structure RequestResponse where
  metadata : Option Bytes
  data : Option Bytes
deriving Repr, DecidableEq

def RequestResponse.decode (flag : Nat) (bf : Bytes) :
    RunResult RequestResponse :=
  match PayloadSupport.read flag bf with
  | none => .panic
  | some (m, d) => .ok { metadata := m, data := d }

def RequestResponse.writeTo (v : RequestResponse) : Bytes :=
  PayloadSupport.write v.metadata v.data

def RequestResponse.bodyLen (v : RequestResponse) : Nat :=
  PayloadSupport.len v.metadata v.data

/-- Modelled from the spec: `RequestStream` body (source file not under
`src/`); §4.2 lists it among the payload-carrying bodies. -/
structure RequestStream where
  metadata : Option Bytes
  data : Option Bytes
deriving Repr, DecidableEq

def RequestStream.decode (flag : Nat) (bf : Bytes) : RunResult RequestStream :=
  match PayloadSupport.read flag bf with
  | none => .panic
  | some (m, d) => .ok { metadata := m, data := d }

def RequestStream.writeTo (v : RequestStream) : Bytes :=
  PayloadSupport.write v.metadata v.data

def RequestStream.bodyLen (v : RequestStream) : Nat :=
  PayloadSupport.len v.metadata v.data

/-- Modelled from the spec: `RequestChannel` body (source file not under
`src/`); §4.2 lists it among the payload-carrying bodies. -/
structure RequestChannel where
  metadata : Option Bytes
  data : Option Bytes
deriving Repr, DecidableEq

def RequestChannel.decode (flag : Nat) (bf : Bytes) :
    RunResult RequestChannel :=
  match PayloadSupport.read flag bf with
  | none => .panic
  | some (m, d) => .ok { metadata := m, data := d }

def RequestChannel.writeTo (v : RequestChannel) : Bytes :=
  PayloadSupport.write v.metadata v.data

def RequestChannel.bodyLen (v : RequestChannel) : Nat :=
  PayloadSupport.len v.metadata v.data

/-- Modelled from the spec: `RequestN` body (source file not under `src/`);
§4.3 says it carries a single 32-bit request count, and every body's decode
must reject truncated input with a decode error. -/
structure RequestN where
  n : Nat
deriving Repr, DecidableEq

def RequestN.decode (_flag : Nat) (bf : Bytes) : RunResult RequestN :=
  match readU32be bf with
  | some v => .ok { n := v }
  | none => .err ("request n underflow")

def RequestN.writeTo (v : RequestN) : Bytes := putU32be v.n

def RequestN.bodyLen (_v : RequestN) : Nat := 4

/-- Modelled from the spec: `Payload` body (source file not under `src/`);
§4.2 lists it among the payload-carrying bodies. -/
structure Payload where
  metadata : Option Bytes
  data : Option Bytes
deriving Repr, DecidableEq

def Payload.decode (flag : Nat) (bf : Bytes) : RunResult Payload :=
  match PayloadSupport.read flag bf with
  | none => .panic
  | some (m, d) => .ok { metadata := m, data := d }

def Payload.writeTo (v : Payload) : Bytes :=
  PayloadSupport.write v.metadata v.data

def Payload.bodyLen (v : Payload) : Nat :=
  PayloadSupport.len v.metadata v.data

/-- Modelled from the spec: `Error` body (source file not under `src/`);
§4.3 says it carries a 32-bit error code plus message bytes running to the
end of the frame. -/
structure Error where
  code : Nat
  message : Bytes
deriving Repr, DecidableEq

def Error.decode (_flag : Nat) (bf : Bytes) : RunResult Error :=
  match readU32be bf with
  | some c => .ok { code := c, message := bf.drop 4 }
  | none => .err ("error frame underflow")

def Error.writeTo (v : Error) : Bytes := putU32be v.code ++ v.message

def Error.bodyLen (v : Error) : Nat := 4 + v.message.length

/-- Modelled from the spec: `MetadataPush` body (source file not under
`src/`); §4.2 lists it among the payload-carrying bodies. -/
structure MetadataPush where
  metadata : Option Bytes
  data : Option Bytes
deriving Repr, DecidableEq

def MetadataPush.decode (flag : Nat) (bf : Bytes) : RunResult MetadataPush :=
  match PayloadSupport.read flag bf with
  | none => .panic
  | some (m, d) => .ok { metadata := m, data := d }

def MetadataPush.writeTo (v : MetadataPush) : Bytes :=
  PayloadSupport.write v.metadata v.data

def MetadataPush.bodyLen (v : MetadataPush) : Nat :=
  PayloadSupport.len v.metadata v.data

/-- Modelled from the spec: `Resume` body, layout not given by the spec;
opaque raw-byte carrier (see `Setup`).  The frame envelope in `mod.rs`
never dispatches to it: `Frame::write_to` and `Frame::len` have no
`Body::Resume` arm (they hit the `_ => unimplemented!()` fallback) and
`Frame::decode` has no `TYPE_RESUME` arm. -/
structure Resume where
  raw : Bytes
deriving Repr, DecidableEq

def Resume.writeTo (v : Resume) : Bytes := v.raw

def Resume.bodyLen (v : Resume) : Nat := v.raw.length

/-- Modelled from the spec: `ResumeOK` body, layout not given by the spec;
opaque raw-byte carrier (see `Setup`). -/
structure ResumeOK where
  raw : Bytes
deriving Repr, DecidableEq

def ResumeOK.decode (_flag : Nat) (bf : Bytes) : RunResult ResumeOK :=
  .ok { raw := bf }

def ResumeOK.writeTo (v : ResumeOK) : Bytes := v.raw

def ResumeOK.bodyLen (v : ResumeOK) : Nat := v.raw.length

/-- The `Body` tagged union of `mod.rs`: one variant per frame kind. -/
inductive Body where
  | Setup : RSocket.Setup → Body
  | Lease : RSocket.Lease → Body
  | Keepalive : RSocket.Keepalive → Body
  | RequestFNF : RSocket.RequestFNF → Body
  | RequestResponse : RSocket.RequestResponse → Body
  | RequestStream : RSocket.RequestStream → Body
  | RequestChannel : RSocket.RequestChannel → Body
  | RequestN : RSocket.RequestN → Body
  | Cancel : Body
  | Payload : RSocket.Payload → Body
  | Error : RSocket.Error → Body
  | MetadataPush : RSocket.MetadataPush → Body
  | Resume : RSocket.Resume → Body
  | ResumeOK : RSocket.ResumeOK → Body
deriving Repr, DecidableEq

/-- `to_frame_type` of `mod.rs`: the total mapping from body variant to
frame type code. -/
def to_frame_type : Body → Nat
  | .Setup _ => TYPE_SETUP
  | .Lease _ => TYPE_LEASE
  | .Keepalive _ => TYPE_KEEPALIVE
  | .RequestResponse _ => TYPE_REQUEST_RESPONSE
  | .RequestFNF _ => TYPE_REQUEST_FNF
  | .RequestStream _ => TYPE_REQUEST_STREAM
  | .RequestChannel _ => TYPE_REQUEST_CHANNEL
  | .RequestN _ => TYPE_REQUEST_N
  | .Cancel => TYPE_CANCEL
  | .Payload _ => TYPE_PAYLOAD
  | .Error _ => TYPE_ERROR
  | .MetadataPush _ => TYPE_METADATA_PUSH
  | .Resume _ => TYPE_RESUME
  | .ResumeOK _ => TYPE_RESUME_OK

/-- The `Frame` struct of `mod.rs`. -/
structure Frame where
  stream_id : Nat
  body : Body
  flag : Nat
deriving Repr, DecidableEq

/-- `Frame::new`: plain construction, no validation or masking. -/
def Frame.new (stream_id : Nat) (body : Body) (flag : Nat) : Frame :=
  { stream_id := stream_id, body := body, flag := flag }

def Frame.get_body (f : Frame) : Body := f.body

def Frame.get_frame_type (f : Frame) : Nat := to_frame_type f.body

def Frame.get_flag (f : Frame) : Nat := f.flag

def Frame.get_stream_id (f : Frame) : Nat := f.stream_id

def Frame.has_next (f : Frame) : Bool := f.flag &&& FLAG_NEXT != 0

def Frame.has_complete (f : Frame) : Bool := f.flag &&& FLAG_COMPLETE != 0

/-- `Frame::write_to`: the 4-byte big-endian stream id, the 16-bit word
`(to_frame_type(body) << 10) | flag` (note: the flag is NOT masked to its
low 10 bits), then the body's bytes.  The match in `mod.rs` lists every
variant except `Body::Resume`, which falls into `_ => unimplemented!()`:
that panic is modelled as `none`. -/
def Frame.writeTo (f : Frame) : Option Bytes :=
  let header :=
    putU32be f.stream_id ++ putU16be ((to_frame_type f.body <<< 10) ||| f.flag)
  match f.body with
  | .Setup v => some (header ++ v.writeTo)
  | .RequestResponse v => some (header ++ v.writeTo)
  | .RequestStream v => some (header ++ v.writeTo)
  | .RequestChannel v => some (header ++ v.writeTo)
  | .RequestFNF v => some (header ++ v.writeTo)
  | .RequestN v => some (header ++ v.writeTo)
  | .MetadataPush v => some (header ++ v.writeTo)
  | .Keepalive v => some (header ++ v.writeTo)
  | .Payload v => some (header ++ v.writeTo)
  | .Lease v => some (header ++ v.writeTo)
  | .Error v => some (header ++ v.writeTo)
  | .Cancel => some header
  | .ResumeOK v => some (header ++ v.writeTo)
  | .Resume _ => none

/-- `Frame::len`: `LEN_HEADER` plus the body's length.  As in `write_to`,
`Body::Resume` has no arm and falls into `_ => unimplemented!()`, modelled
as `none`. -/
def Frame.len (f : Frame) : Option Nat :=
  match f.body with
  | .Setup v => some (LEN_HEADER + v.bodyLen)
  | .RequestResponse v => some (LEN_HEADER + v.bodyLen)
  | .RequestStream v => some (LEN_HEADER + v.bodyLen)
  | .RequestChannel v => some (LEN_HEADER + v.bodyLen)
  | .RequestFNF v => some (LEN_HEADER + v.bodyLen)
  | .RequestN v => some (LEN_HEADER + v.bodyLen)
  | .MetadataPush v => some (LEN_HEADER + v.bodyLen)
  | .Keepalive v => some (LEN_HEADER + v.bodyLen)
  | .Payload v => some (LEN_HEADER + v.bodyLen)
  | .Lease v => some (LEN_HEADER + v.bodyLen)
  | .Cancel => some (LEN_HEADER + 0)
  | .Error v => some (LEN_HEADER + v.bodyLen)
  | .ResumeOK v => some (LEN_HEADER + v.bodyLen)
  | .Resume _ => none

/-- The body-dispatch match inside `Frame::decode`: one arm per known type
code, `TYPE_CANCEL` producing `Body::Cancel` directly, and the fallback arm
producing the "illegal frame type" error.  `mod.rs` has no arm for
`TYPE_RESUME` (0x0D), so that code also lands in the fallback. -/
def decodeBody (kind flag : Nat) (b : Bytes) : RunResult Body :=
  match kind with
  | 0x01 => (Setup.decode flag b).map Body.Setup
  | 0x04 => (RequestResponse.decode flag b).map Body.RequestResponse
  | 0x06 => (RequestStream.decode flag b).map Body.RequestStream
  | 0x07 => (RequestChannel.decode flag b).map Body.RequestChannel
  | 0x05 => (RequestFNF.decode flag b).map Body.RequestFNF
  | 0x08 => (RequestN.decode flag b).map Body.RequestN
  | 0x0C => (MetadataPush.decode flag b).map Body.MetadataPush
  | 0x03 => (Keepalive.decode flag b).map Body.Keepalive
  | 0x0A => (Payload.decode flag b).map Body.Payload
  | 0x02 => (Lease.decode flag b).map Body.Lease
  | 0x09 => .ok Body.Cancel
  | 0x0B => (Error.decode flag b).map Body.Error
  | 0x0E => (ResumeOK.decode flag b).map Body.ResumeOK
  | _ => .err ("illegal frame type")

/-- `Frame::decode`: reads the 32-bit stream id and the 16-bit
type-and-flags word (each read panics when the buffer is too short — the
source has a `// TODO: check size` and performs no size check), splits the
word into `flag = n & 0x03FF` and `kind = (n & 0xFC00) >> 10`, dispatches
on `kind`, and wraps the body with the header fields. -/
def Frame.decode (b : Bytes) : RunResult Frame :=
  match readU32be b with
  | none => .panic
  | some sid =>
    match readU16be (b.drop 4) with
    | none => .panic
    | some n =>
      (decodeBody ((n &&& 0xFC00) >>> 10) (n &&& 0x03FF) ((b.drop 4).drop 2)).map
        (fun it => Frame.new sid it (n &&& 0x03FF))

/-- The `RequestFNFBuilder` struct of `request_fnf.rs`. -/
structure RequestFNFBuilder where
  stream_id : Nat
  flag : Nat
  value : RequestFNF
deriving Repr, DecidableEq

/-- `RequestFNFBuilder::new` (reached through `RequestFNF::builder`):
starts with both payload fields absent and the caller's flag unchanged. -/
def RequestFNF.builder (stream_id flag : Nat) : RequestFNFBuilder :=
  { stream_id := stream_id, flag := flag,
    value := { metadata := none, data := none } }

/-- `RequestFNFBuilder::build`: wraps the accumulated body and flag into a
frame. -/
def RequestFNFBuilder.build (b : RequestFNFBuilder) : Frame :=
  Frame.new b.stream_id (Body.RequestFNF b.value) b.flag

/-- `RequestFNFBuilder::set_metadata`: stores the metadata and raises
`FLAG_METADATA`. -/
def RequestFNFBuilder.set_metadata (b : RequestFNFBuilder) (m : Bytes) :
    RequestFNFBuilder :=
  { b with value := { b.value with metadata := some m },
           flag := b.flag ||| FLAG_METADATA }

/-- `RequestFNFBuilder::set_data`: stores the data; the flag is
untouched. -/
def RequestFNFBuilder.set_data (b : RequestFNFBuilder) (d : Bytes) :
    RequestFNFBuilder :=
  { b with value := { b.value with data := some d } }

/-- `RequestFNFBuilder::set_all`: replaces both fields; raises
`FLAG_METADATA` when the new metadata is present and clears it otherwise
(`flag &= !FLAG_METADATA`; the 16-bit complement of 0x0100 is 0xFEFF). -/
def RequestFNFBuilder.set_all (b : RequestFNFBuilder)
    (data_and_metadata : Option Bytes × Option Bytes) : RequestFNFBuilder :=
  match data_and_metadata.2 with
  | some m =>
    { b with value := { data := data_and_metadata.1, metadata := some m },
             flag := b.flag ||| FLAG_METADATA }
  | none =>
    { b with value := { data := data_and_metadata.1, metadata := none },
             flag := b.flag &&& 0xFEFF }

/-- One builder operation, for stating properties over arbitrary sequences
of builder calls. -/
inductive FNFOp where
  | set_metadata : Bytes → FNFOp
  | set_data : Bytes → FNFOp
  | set_all : Option Bytes × Option Bytes → FNFOp
deriving Repr, DecidableEq

/-- Apply one builder operation. -/
def RequestFNFBuilder.applyOp (b : RequestFNFBuilder) : FNFOp → RequestFNFBuilder
  | .set_metadata m => b.set_metadata m
  | .set_data d => b.set_data d
  | .set_all dm => b.set_all dm

/-- Apply a sequence of builder operations in order. -/
def RequestFNFBuilder.applyOps (b : RequestFNFBuilder) (ops : List FNFOp) :
    RequestFNFBuilder :=
  ops.foldl RequestFNFBuilder.applyOp b

/-- Extract the `RequestFNF` body of a frame, when it has one. -/
def fnfBody : Body → Option RequestFNF
  | .RequestFNF v => some v
  | _ => none

/-- Flag/field consistency of a `RequestFNFBuilder`: `FLAG_METADATA` is set
in the accumulated flag exactly when the accumulated metadata field is
present. -/
def mflagSync (b : RequestFNFBuilder) : Prop :=
  (b.flag &&& FLAG_METADATA ≠ 0) ↔ b.value.metadata ≠ none

/- ------------------------------------------------------------------ -/
/- Helper lemmas                                                      -/
/- ------------------------------------------------------------------ -/

theorem RunResult.map_eq_ok {α β : Type} (g : α → β) (r : RunResult α) (x : β)
    (h : r.map g = RunResult.ok x) : ∃ a, r = RunResult.ok a ∧ x = g a := by
  cases r with
  | panic => exact RunResult.noConfusion h
  | err s => exact RunResult.noConfusion h
  | ok a =>
    simp only [RunResult.map] at h
    injection h with h1
    exact ⟨a, rfl, h1.symm⟩

theorem and_1023_of_lt (x : Nat) (h : x < 1024) : x &&& 1023 = x := by
  have h2 : x &&& 1023 = x % 1024 := by
    have := Nat.and_pow_two_sub_one_eq_mod x 10
    simpa using this
  rw [h2, Nat.mod_eq_of_lt h]

theorem word_shiftRight_ten (c flag : Nat) (hf : flag < 1024) :
    ((c <<< 10) ||| flag) >>> 10 = c := by
  apply Nat.eq_of_testBit_eq
  intro i
  rw [Nat.testBit_shiftRight, Nat.testBit_or, Nat.testBit_shiftLeft]
  have hflag : flag.testBit (10 + i) = false := by
    apply Nat.testBit_lt_two_pow
    calc flag < 1024 := hf
    _ ≤ 2 ^ (10 + i) := by
      have h10 : (1024 : Nat) = 2 ^ 10 := by norm_num
      rw [h10]
      exact Nat.pow_le_pow_right (by norm_num) (by omega)
  rw [hflag]
  have h10 : (10 : Nat) ≤ 10 + i := by omega
  simp [h10]

theorem and_flagM_ne_zero_iff (x : Nat) :
    (x &&& FLAG_METADATA ≠ 0) ↔ x.testBit 8 = true := by
  have hF : FLAG_METADATA = 2 ^ 8 := by decide
  rw [hF, Nat.and_two_pow]
  cases hx : x.testBit 8 <;> simp [hx]

theorem mflagSync_applyOp (b : RequestFNFBuilder) (op : FNFOp)
    (h : mflagSync b) : mflagSync (b.applyOp op) := by
  cases op with
  | set_metadata m =>
    simp only [mflagSync, RequestFNFBuilder.applyOp,
      RequestFNFBuilder.set_metadata, and_flagM_ne_zero_iff, Nat.testBit_or]
    simp [FLAG_METADATA]
    exact Or.inr (by decide)
  | set_data d =>
    simpa [mflagSync, RequestFNFBuilder.applyOp,
      RequestFNFBuilder.set_data] using h
  | set_all dm =>
    cases hdm : dm.2 with
    | some m =>
      simp only [mflagSync, RequestFNFBuilder.applyOp,
        RequestFNFBuilder.set_all, hdm, and_flagM_ne_zero_iff, Nat.testBit_or]
      simp [FLAG_METADATA]
      exact Or.inr (by decide)
    | none =>
      simp only [mflagSync, RequestFNFBuilder.applyOp,
        RequestFNFBuilder.set_all, hdm, and_flagM_ne_zero_iff, Nat.testBit_and]
      simp
      exact fun _ => by decide

theorem mflagSync_applyOps (ops : List FNFOp) :
    ∀ b : RequestFNFBuilder, mflagSync b → mflagSync (b.applyOps ops) := by
  induction ops with
  | nil => intro b h; exact h
  | cons op rest ih =>
    intro b h
    have hstep := mflagSync_applyOp b op h
    simpa [RequestFNFBuilder.applyOps, List.foldl] using
      ih (b.applyOp op) hstep

/- ------------------------------------------------------------------ -/
/- Claim theorems                                                     -/
/- ------------------------------------------------------------------ -/

/-- Claim C1 (code bug): the round-trip `decode(encode(frame)) == frame`
cannot hold for every supported frame kind, because `Frame::write_to` has no
`Body::Resume` arm and hits the `_ => unimplemented!()` fallback: encoding
any Resume-bodied frame panics instead of producing bytes. -/
theorem c1_resume_encode_unimplemented :
    Frame.writeTo (Frame.new 1 (Body.Resume { raw := [] }) 0) = none := by
  decide

/-- Claim C2 (code bug): `Frame::decode` has no arm for `TYPE_RESUME`
(0x0D), so a frame whose type-and-flags word carries code 0x0D — inside the
claimed 0x01..=0x0E range — falls into the fallback arm and yields the
"illegal frame type" decode error. -/
theorem c2_resume_code_illegal :
    Frame.decode [0, 0, 0, 0, 0x34, 0] = RunResult.err ("illegal frame type") ∧
    TYPE_RESUME = 0x0D ∧ (0x34 * 256 &&& 0xFC00) >>> 10 = TYPE_RESUME := by
  decide

/-- Claim C3 (counterexample): the claim is false for flags with bits above
the low 10 set, because `Frame::write_to` writes
`(to_frame_type(body) << 10) | flag` WITHOUT masking the flag.  For a Cancel
frame (type code 0x09) with stored flag 0x8000 the emitted word is 0xA400
(bytes 164, 0) whose top 6 bits are 41, not 9, while the claimed encoding
`(code << 10) | (flag & 0x03FF)` would give 0x2400 (bytes 36, 0). -/
theorem c3_cex :
    Frame.writeTo (Frame.new 0 Body.Cancel 0x8000) = some [0, 0, 0, 0, 164, 0] ∧
    putU32be 0 ++
        putU16be ((to_frame_type Body.Cancel <<< 10) ||| (0x8000 &&& 0x03FF)) =
      [0, 0, 0, 0, 36, 0] ∧
    (164 * 256 : Nat) >>> 10 = 41 ∧
    to_frame_type Body.Cancel = 9 := by
  decide

/-- Claim C3 (amended): `Frame::write_to` writes the stream id as a 32-bit
big-endian integer followed by the 16-bit big-endian word
`(to_frame_type(body) << 10) | flag`, with no masking of the stored flag;
provided the stored flag fits in the low 10 bits, that word equals
`(frame_type_code << 10) | (flag & 0x03FF)` and its top 6 bits are exactly
the type code. -/
theorem c3_header_write_amended (f : Frame) (bs : Bytes)
    (h : Frame.writeTo f = some bs) (hflag : f.flag < 1024) :
    bs.take 6 =
      putU32be f.stream_id ++
        putU16be ((to_frame_type f.body <<< 10) ||| (f.flag &&& 0x03FF)) ∧
    ((to_frame_type f.body <<< 10) ||| f.flag) >>> 10 = to_frame_type f.body := by
  obtain ⟨sid, body, flag⟩ := f
  have hmask : flag &&& 0x03FF = flag := and_1023_of_lt flag hflag
  refine ⟨?_, word_shiftRight_ten (to_frame_type body) flag hflag⟩
  simp only [hmask]
  cases body <;> simp [Frame.writeTo] at h <;> subst h <;>
    simp [putU32be, putU16be]

/-- Witness for the amended Claim C3, at a Cancel frame with stream id 7 and
flag 5 (the emitted word is 0x2405, bytes 36 and 5). -/
theorem c3_header_write_witness :
    Frame.writeTo (Frame.new 7 Body.Cancel 5) = some [0, 0, 0, 7, 36, 5] ∧
    (5 : Nat) < 1024 ∧
    ((List.take 6 [0, 0, 0, 7, 36, 5] =
      putU32be 7 ++
        putU16be ((to_frame_type Body.Cancel <<< 10) ||| (5 &&& 0x03FF))) ∧
    ((to_frame_type Body.Cancel <<< 10) ||| 5) >>> 10 = to_frame_type Body.Cancel) :=
  ⟨by decide, by decide,
    c3_header_write_amended (Frame.new 7 Body.Cancel 5) [0, 0, 0, 7, 36, 5]
      (by decide) (by decide)⟩

/-- Claim C4 (code bug): `Frame::decode` performs no size check (the source
has a literal `// TODO: check size`) and reads the 4-byte stream id and the
2-byte word with `BigEndian::read_u32`/`read_u16`, which panic on a buffer
holding fewer bytes than requested: an empty buffer and a 5-byte buffer both
panic instead of returning a `FrameDecodeError`. -/
theorem c4_short_buffer_panics :
    Frame.decode [] = RunResult.panic ∧
    Frame.decode [0, 0, 0, 7, 20] = RunResult.panic := by
  decide

/-- Claim C5 (counterexample): the claim quantifies over builder
construction with ANY initial flag followed by any (possibly empty) sequence
of operations; seeding the builder with `FLAG_METADATA` already set and
building immediately yields a frame whose flag has `FLAG_METADATA` set while
the body's metadata field is `None`. -/
theorem c5_cex :
    (RequestFNF.builder 0 FLAG_METADATA).build.get_flag &&& FLAG_METADATA = 256 ∧
    fnfBody (RequestFNF.builder 0 FLAG_METADATA).build.get_body =
      some { metadata := none, data := none } := by
  decide

/-- Claim C5 (amended): provided the builder's initial flag has
`FLAG_METADATA` clear, after any sequence of `set_metadata`, `set_data`,
`set_all` operations the built frame has `FLAG_METADATA` set in its flag if
and only if the body's metadata field is present. -/
theorem c5_metadata_sync_amended (sid flag : Nat) (ops : List FNFOp)
    (h : flag &&& FLAG_METADATA = 0) :
    ∃ v, fnfBody ((RequestFNF.builder sid flag).applyOps ops).build.get_body =
        some v ∧
      ((((RequestFNF.builder sid flag).applyOps ops).build.get_flag &&&
          FLAG_METADATA ≠ 0) ↔ v.metadata ≠ none) := by
  have hinit : mflagSync (RequestFNF.builder sid flag) := by
    simp [mflagSync, RequestFNF.builder, h]
  have hsync := mflagSync_applyOps ops (RequestFNF.builder sid flag) hinit
  refine ⟨((RequestFNF.builder sid flag).applyOps ops).value, ?_, ?_⟩
  · rfl
  · exact hsync

/-- Witness for the amended Claim C5: initial flag 0, then one
`set_metadata` call. -/
theorem c5_metadata_sync_witness :
    (0 : Nat) &&& FLAG_METADATA = 0 ∧
    ∃ v, fnfBody ((RequestFNF.builder 0 0).applyOps
        [FNFOp.set_metadata [1]]).build.get_body = some v ∧
      ((((RequestFNF.builder 0 0).applyOps
          [FNFOp.set_metadata [1]]).build.get_flag &&& FLAG_METADATA ≠ 0) ↔
        v.metadata ≠ none) :=
  ⟨by decide, c5_metadata_sync_amended 0 0 [FNFOp.set_metadata [1]] (by decide)⟩

/-- Claim C6 (code bug): `RequestFNF::decode` wraps the plain pair returned
by `PayloadSupport::read` in `Ok` unconditionally, so it has no error path
at all: on a body whose 3-byte metadata length prefix declares 5 bytes while
only 1 remains it panics (the buffer split on the declared length), and in
general every outcome is a panic or an `Ok`, never a `FrameDecodeError`. -/
theorem c6_overlong_metadata_no_error :
    RequestFNF.decode FLAG_METADATA [0, 0, 5, 97] = RunResult.panic ∧
    ∀ flag bf, RequestFNF.decode flag bf = RunResult.panic ∨
      ∃ v, RequestFNF.decode flag bf = RunResult.ok v := by
  refine ⟨by decide, ?_⟩
  intro flag bf
  unfold RequestFNF.decode
  cases PayloadSupport.read flag bf with
  | none => exact Or.inl rfl
  | some p => exact Or.inr ⟨{ metadata := p.1, data := p.2 }, by cases p; rfl⟩

/-- Claim C7 (code bug): `Frame::len` has no `Body::Resume` arm and hits the
`_ => unimplemented!()` fallback, so for a Resume-bodied frame it panics
instead of returning `6 + body.len()`. -/
theorem c7_resume_len_unimplemented :
    Frame.len (Frame.new 1 (Body.Resume { raw := [] }) 0) = none := by
  decide

/-- Claim C8: encoding a RequestFNF frame with stream id 7, data `b"hello"`
and no metadata yields exactly `00 00 00 07` followed by the word 0x1400
(top 6 bits 0x05 = `TYPE_REQUEST_FNF`, `FLAG_METADATA` clear) followed by
the raw bytes of "hello" with no length prefix, and decoding those bytes
yields the same frame back. -/
theorem c8_fnf_hello_roundtrip :
    Frame.writeTo (Frame.new 7
        (Body.RequestFNF { metadata := none, data := some [104, 101, 108, 108, 111] }) 0) =
      some ([0, 0, 0, 7] ++ [20, 0] ++ [104, 101, 108, 108, 111]) ∧
    (20 * 256 &&& 0xFC00) >>> 10 = TYPE_REQUEST_FNF ∧
    20 * 256 &&& FLAG_METADATA = 0 ∧
    Frame.decode ([0, 0, 0, 7] ++ [20, 0] ++ [104, 101, 108, 108, 111]) =
      RunResult.ok (Frame.new 7
        (Body.RequestFNF { metadata := none, data := some [104, 101, 108, 108, 111] }) 0) := by
  decide

/-- Claim C9: whenever `Frame::decode` succeeds, the returned frame's flag
was extracted as `word & 0x03FF`, so its upper six bits are zero: the flag
is at most 0x03FF. -/
theorem c9_decoded_flag_low10 (b : Bytes) (f : Frame)
    (h : Frame.decode b = RunResult.ok f) : f.get_flag ≤ 0x03FF := by
  unfold Frame.decode at h
  cases h32 : readU32be b with
  | none => rw [h32] at h; exact RunResult.noConfusion h
  | some sid =>
    rw [h32] at h
    cases h16 : readU16be (b.drop 4) with
    | none => rw [h16] at h; exact RunResult.noConfusion h
    | some n =>
      rw [h16] at h
      obtain ⟨a, _, hx⟩ := RunResult.map_eq_ok _ _ _ h
      subst hx
      show n &&& 0x03FF ≤ 0x03FF
      exact Nat.and_le_right

/-- Witness for Claim C9: a 6-byte Cancel frame decodes successfully and its
flag is within the low 10 bits. -/
theorem c9_decoded_flag_low10_witness :
    Frame.decode [0, 0, 0, 1, 36, 0] = RunResult.ok (Frame.new 1 Body.Cancel 0) ∧
    (Frame.new 1 Body.Cancel 0).get_flag ≤ 0x03FF :=
  ⟨by decide,
    c9_decoded_flag_low10 [0, 0, 0, 1, 36, 0] (Frame.new 1 Body.Cancel 0)
      (by decide)⟩

/-- Claim C10: `Frame::new` performs no validation or masking: for every
stream id, body and flag — however inconsistent — the constructed frame's
`get_stream_id`, `get_flag` and `get_body` return exactly the arguments
given. -/
theorem c10_frame_new_identity (sid : Nat) (body : Body) (flag : Nat) :
    (Frame.new sid body flag).get_stream_id = sid ∧
    (Frame.new sid body flag).get_flag = flag ∧
    (Frame.new sid body flag).get_body = body :=
  ⟨rfl, rfl, rfl⟩

end RSocket
